import Mathlib

/-!
Verification of the curio-buildtracker infrastructure logic.

Shallow embedding of the decision logic found in:
  - src/cdk/infrastructure/build_manager.py  (event router, autoscaler policies)
  - src/cdk/infrastructure/websocket.py      (ECS status monitor, broadcaster)
  - src/cdk/infrastructure/stack.py          (API handler)
-/

namespace Curio

/-! ## Autoscaler (build_manager.py, lines 100-171)

The service scales via two step-scaling policies over the `TotalBacklog`
metric (visible + in-flight messages, averaged over one minute; modelled
as a rational number).

AWS step-scaling semantics for an alarm that breaches upward: an interval
`ScalingInterval(change, lower, upper)` applies when
`lower <= metric < upper` (lower inclusive, upper exclusive).  For an alarm
that breaches downward the bounds flip: `lower < metric <= upper`.
`AdjustmentType.EXACT_CAPACITY` makes `change` the exact desired capacity.
-/

/-- One `appscaling.ScalingInterval(change=..., lower=..., upper=...)`;
`none` means the bound was omitted (unbounded). -/
structure ScalingInterval where
  change : Int
  lower : Option Rat
  upper : Option Rat
deriving DecidableEq, Repr

/-- `max_capacity=200` (default of `BuildManager.__init__`, used by stack.py). -/
def maxCapacity : Int := 200

/-- The `scaling_steps` of the `ScaleUpPolicy` (build_manager.py lines 134-141). -/
def scaleUpSteps : List ScalingInterval :=
  [ ⟨1, some 1, some 9⟩,
    ⟨2, some 9, some 19⟩,
    ⟨5, some 19, some 49⟩,
    ⟨10, some 49, some 99⟩,
    ⟨50, some 99, some 299⟩,
    ⟨200, some 299, none⟩ ]

/-- The `scaling_steps` of the `ScaleZeroPolicy` (build_manager.py lines 159-162);
`-0.001` is the rational `-1/1000`. -/
def scaleZeroSteps : List ScalingInterval :=
  [ ⟨0, none, some (mkRat (-1) 1000)⟩,
    ⟨0, some (mkRat (-1) 1000), some 0⟩ ]

/-- Interval membership for an upward-breaching alarm: `lower <= m < upper`. -/
def matchUpper (iv : ScalingInterval) (m : Rat) : Bool :=
  (match iv.lower with | some l => decide (l ≤ m) | none => true) &&
  (match iv.upper with | some u => decide (m < u) | none => true)

/-- Interval membership for a downward-breaching alarm: `lower < m <= upper`. -/
def matchLower (iv : ScalingInterval) (m : Rat) : Bool :=
  (match iv.lower with | some l => decide (l < m) | none => true) &&
  (match iv.upper with | some u => decide (m ≤ u) | none => true)

/-- Exact capacity clamped to `[0, maxCapacity]` (auto_scale_task_count with
`min_capacity=0, max_capacity=200`). -/
def clampCapacity (c : Int) : Int := max 0 (min c maxCapacity)

/-- Step resolution for the upward alarm: the first interval containing `m`
gives the exact target capacity. -/
def stepForUpper (steps : List ScalingInterval) (m : Rat) : Option Int :=
  (steps.find? (fun iv => matchUpper iv m)).map (fun iv => clampCapacity iv.change)

/-- Step resolution for the downward alarm. -/
def stepForLower (steps : List ScalingInterval) (m : Rat) : Option Int :=
  (steps.find? (fun iv => matchLower iv m)).map (fun iv => clampCapacity iv.change)

/-- The scale-up decision path.  Input `none` models an evaluation window with
no samples.  The upper alarm has `threshold = 1`,
`datapoints_to_alarm = evaluation_periods = 1`, and
`treat_missing_data = NOT_BREACHING` (build_manager.py lines 147-151), so a
missing sample never fires, and a sample fires iff it is `>= 1`. -/
def scaleUpDecision (sample : Option Rat) : Option Int :=
  match sample with
  | none => none
  | some m => if 1 ≤ m then stepForUpper scaleUpSteps m else none

/-- The scale-to-zero decision path.  The lower alarm has `threshold = 0`,
`datapoints_to_alarm = evaluation_periods = 1`, and
`treat_missing_data = BREACHING` (build_manager.py lines 167-171): a missing
sample fires the alarm, and every interval of the policy carries
`change=0` with EXACT_CAPACITY, so a firing always forces capacity 0. -/
def scaleZeroDecision (sample : Option Rat) : Option Int :=
  match sample with
  | none => some 0
  | some m => if m ≤ 0 then stepForLower scaleZeroSteps m else none

/-! ## Status store and ECS container monitor (websocket.py, lines 244-353)

The status table has partition key `taskId` and sort key `timestamp`; it is
modelled as a list of items in which `put_item` overwrites the item with the
same primary key.  The ECS status handler is the inline Python function
`handler` of the `ECSStatusHandler` lambda, translated statement by
statement; the wall-clock timestamp `datetime.utcnow()` is an explicit
parameter.  Its observable effects are the new table contents and the
ordered list of `put_item` calls it performed (each put is one stream
event consumed downstream by the broadcaster). -/

/-- One item of the status table.  Optional numeric attributes model
attributes that may be absent on an item. -/
structure StatusItem where
  taskId : String
  timestamp : String
  updatedAt : String
  state : String
  jobType : String
  level : String
  message : String
  processed : Option Int := none
  total : Option Int := none
  startedAt : Option String := none
deriving DecidableEq, Repr

/-- `table.put_item`: overwrite the item having the same `(taskId, timestamp)`
primary key. -/
def putItem (tbl : List StatusItem) (it : StatusItem) : List StatusItem :=
  it :: tbl.filter (fun x => !(x.taskId == it.taskId && x.timestamp == it.timestamp))

/-- `table.get_item(Key=...)`: point read by primary key. -/
def getItem (tbl : List StatusItem) (tid ts : String) : Option StatusItem :=
  tbl.find? (fun x => x.taskId == tid && x.timestamp == ts)

/-- An ECS task state-change notification: the `detail` fields read by the
handler (websocket.py lines 258-268). -/
structure EcsEvent where
  taskArn : String
  lastStatus : String
  group : String
  stoppedReason : Option String
deriving DecidableEq, Repr

/-- Python `str.split(sep)` for a one-character separator, over the
character list of a string (structurally recursive so that concrete inputs
evaluate). -/
def splitChar (c : Char) : List Char → List (List Char)
  | [] => [[]]
  | x :: xs =>
    let r := splitChar c xs
    if x = c then [] :: r
    else
      match r with
      | [] => [[x]]
      | y :: ys => (x :: y) :: ys

/-- Python `l[-n:]`. -/
def takeRightChars (n : Nat) (l : List Char) : List Char := l.drop (l.length - n)

/-- Lexicographic order on character lists by code point (structurally
recursive so that concrete inputs evaluate). -/
def strLtData : List Char → List Char → Bool
  | [], [] => false
  | [], _ :: _ => true
  | _ :: _, [] => false
  | a :: as, b :: bs =>
    if a.toNat < b.toNat then true
    else if b.toNat < a.toNat then false
    else strLtData as bs

/-- String order used for DynamoDB sort keys. -/
def strLt (a b : String) : Bool := strLtData a.data b.data

/-- `task_arn.split('/')[-1][-12:]` with the `container-` tag
(websocket.py lines 263-264). -/
def taskIdOf (ev : EcsEvent) : String :=
  "container-" ++ String.mk (takeRightChars 12 ((splitChar '/' ev.taskArn.data).getLastD []))

/-- The message text built at websocket.py lines 276-278. -/
def containerMsg (ev : EcsEvent) : String :=
  "Container " ++ ev.lastStatus ++
    (match ev.stoppedReason with | some r => ": " ++ r | none => "")

/-- The per-task dedup check (websocket.py lines 282-289): the current
`(taskId, "STATUS")` item exists and both `state` and `message` equal the
incoming values. -/
def dedupHit (tbl : List StatusItem) (ev : EcsEvent) : Bool :=
  match getItem tbl (taskIdOf ev) "STATUS" with
  | some last => last.state == ev.lastStatus && last.message == containerMsg ev
  | none => false

/-- The `latest_item` written at websocket.py lines 296-305. -/
def latestItem (ev : EcsEvent) (now : String) : StatusItem :=
  { taskId := taskIdOf ev
    timestamp := "STATUS"
    updatedAt := now
    state := ev.lastStatus
    jobType := "CONTAINER"
    level := "INFO"
    message := containerMsg ev }

/-- The aggregation count (websocket.py lines 311-319): query the
`StateIndex` for `state = RUNNING` filtered by `jobType = CONTAINER`,
`Select=COUNT`. -/
def countRunningContainers (tbl : List StatusItem) : Nat :=
  (tbl.filter (fun x => x.state == "RUNNING" && x.jobType == "CONTAINER")).length

/-- The query at websocket.py lines 324-328: all items with the given
partition key, sort key descending, `Limit=1` — i.e. the item with the
greatest `timestamp` sort key. -/
def queryLatest (tbl : List StatusItem) (tid : String) : Option StatusItem :=
  (tbl.filter (fun x => x.taskId == tid)).foldl
    (fun acc x =>
      match acc with
      | none => some x
      | some y => if strLt y.timestamp x.timestamp then some x else some y) none

/-- `int(last_items[0].get('processed', -1))` on the latest
`system-active-containers` item (websocket.py line 331); `none` when no such
item exists (then `should_update` stays true). -/
def lastCount (tbl : List StatusItem) : Option Int :=
  (queryLatest tbl "system-active-containers").map (fun it => it.processed.getD (-1))

/-- The synthetic metric item written at websocket.py lines 340-350. -/
def metricItem (now : String) (count : Int) : StatusItem :=
  { taskId := "system-active-containers"
    timestamp := "STATUS"
    updatedAt := now
    state := "RUNNING"
    jobType := "METRIC"
    level := "INFO"
    message := "Active Containers: " ++ toString count
    processed := some count
    total := some count }

/-- Result of one handler invocation: the table afterwards and the ordered
`put_item` calls performed (the observable change events downstream). -/
structure HandlerResult where
  table : List StatusItem
  puts : List StatusItem
deriving DecidableEq, Repr

/-- The table right after the `latest_item` write (websocket.py line 305);
the aggregation block reads this state. -/
def afterPut (tbl : List StatusItem) (ev : EcsEvent) (now : String) : List StatusItem :=
  putItem tbl (latestItem ev now)

/-- `should_update` (websocket.py lines 321-336): false exactly when the
latest `system-active-containers` item records the freshly recomputed
count in `processed`. -/
def shouldUpdateMetric (tbl1 : List StatusItem) : Bool :=
  match lastCount tbl1 with
  | some lc => !(lc == (countRunningContainers tbl1 : Int))
  | none => true

/-- The non-deduplicated tail of the handler (websocket.py lines 293-352):
write the current item, recompute the running-container count over the
updated table, and write the metric item unless the count equals the
previously recorded one. -/
def ecsWritePath (tbl : List StatusItem) (ev : EcsEvent) (now : String) : HandlerResult :=
  if shouldUpdateMetric (afterPut tbl ev now) then
    ⟨putItem (afterPut tbl ev now)
        (metricItem now (countRunningContainers (afterPut tbl ev now))),
      [latestItem ev now, metricItem now (countRunningContainers (afterPut tbl ev now))]⟩
  else
    ⟨afterPut tbl ev now, [latestItem ev now]⟩

/-- The ECS status handler (websocket.py lines 254-352).  Early returns:
empty `taskArn` (line 260), empty `group` (line 271), and the per-task dedup
hit (line 289) — note the dedup hit returns from the whole handler, before
the aggregation block. -/
def ecsHandler (tbl : List StatusItem) (ev : EcsEvent) (now : String) : HandlerResult :=
  if ev.taskArn = "" then ⟨tbl, []⟩
  else if ev.group = "" then ⟨tbl, []⟩
  else if dedupHit tbl ev then ⟨tbl, []⟩
  else ecsWritePath tbl ev now

/-! ## Broadcaster (websocket.py, lines 165-213)

The `BroadcasterHandler` lambda scans the connections registry once, then
for each stream record posts the serialized status change to every scanned
connection id.  `post_to_connection` raising `GoneException` deletes that
connection's registry record; every other exception is printed and
ignored.  The per-destination outcome is modelled by an oracle
`send : String -> SendResult`. -/

/-- Outcome of one `post_to_connection` call. -/
inductive SendResult
  | ok
  | gone
  | otherError
deriving DecidableEq, Repr

/-- Registry after the fan-out plus the ordered list of connection ids a
delivery was attempted to. -/
structure BroadcastResult where
  registry : List String
  attempts : List String
deriving DecidableEq, Repr

/-- The inner loop of websocket.py lines 204-211: deliver to each scanned
connection id in turn; on `GoneException` delete that id's registry record
(`delete_item` removes every record keyed by the id), on any other failure
do nothing. -/
def deliverAll (reg : List String) (conns : List String) (send : String → SendResult) :
    BroadcastResult :=
  match conns with
  | [] => ⟨reg, []⟩
  | c :: rest =>
    let reg1 :=
      match send c with
      | SendResult.gone => reg.filter (fun x => !(x == c))
      | _ => reg
    let r := deliverAll reg1 rest send
    ⟨r.registry, c :: r.attempts⟩

/-- One stream record's fan-out: the scan (websocket.py lines 178-179)
returns the current registry, and delivery is attempted to every scanned
id. -/
def broadcastRecord (reg : List String) (send : String → SendResult) : BroadcastResult :=
  deliverAll reg reg send

/-! ## Event router (build_manager.py, lines 59-98)

The `curio.buildmanager` event bus archives every event matching
`account=[scope.account]` with 30-day retention, and the
`ProcessEventsRule` copies events matching
`source=["curio.buildmanager"]` and
`detail_type=["NoOp", "ArtifactAdded", "ArtifactRemoved"]` onto the build
queue.  EventBridge patterns listing several values match by exact set
membership per field. -/

/-- The fields of a bus event the archive and the rule patterns inspect. -/
structure BusEvent where
  account : String
  source : String
  detailType : String
deriving DecidableEq, Repr

/-- `retention=Duration.days(30)` of the archive (build_manager.py line 66). -/
def archiveRetentionDays : Nat := 30

/-- The archive's `event_pattern=EventPattern(account=[scope.account])`
(build_manager.py lines 62-67): matches every event of the deploying
account. -/
def archiveMatches (busAccount : String) (e : BusEvent) : Bool :=
  e.account == busAccount

/-- `source=["curio.buildmanager"]` of `ProcessEventsRule`. -/
def ruleSources : List String := ["curio.buildmanager"]

/-- `detail_type=[...]` of `ProcessEventsRule` (build_manager.py line 77). -/
def ruleDetailTypes : List String := ["NoOp", "ArtifactAdded", "ArtifactRemoved"]

/-- `ProcessEventsRule` (build_manager.py lines 71-80): the event is copied
onto the SQS queue when its source and detail type each match the
pattern. -/
def forwardedToQueue (e : BusEvent) : Bool :=
  ruleSources.contains e.source && ruleDetailTypes.contains e.detailType

/-- The spec's allow-list view of the same rule: the configured
`(source, detailType)` pairs (spec section 4.2). -/
def allowList : List (String × String) :=
  [ ("curio.buildmanager", "NoOp"),
    ("curio.buildmanager", "ArtifactAdded"),
    ("curio.buildmanager", "ArtifactRemoved") ]

/-! ## API handler (stack.py, lines 163-508)

The inline Python `handler` of the `ApiHandler` lambda, restricted to its
observable decisions: the HTTP status, the active-job answer of
`GET /catalog`, the writes to the status table, and the messages sent to
the build queue.  `uuid.uuid4()` and `datetime.utcnow()` are explicit
parameters.  The `GET /content` branch and the trailing admin scan touch
only the catalog table and S3 — they perform no status-table write and no
queue send — and are collapsed into the final catch-all outcome. -/

/-- The raw `cognito:groups` claim (stack.py lines 183-190): absent, a
comma-separated string, or a list. -/
inductive GroupsClaim
  | missing
  | str (s : String)
  | lst (l : List String)
deriving DecidableEq, Repr

/-- Python `str.strip()` whitespace test. -/
def isPyWs (c : Char) : Bool := c == ' ' || c == '\t' || c == '\n' || c == '\r'

/-- Python `str.strip()`. -/
def strTrim (s : String) : String :=
  String.mk (((s.data.dropWhile isPyWs).reverse.dropWhile isPyWs).reverse)

/-- Group parsing (stack.py lines 185-193): split a string claim on commas,
keep a list claim, default to empty, then strip whitespace. -/
def parseGroups : GroupsClaim → List String
  | GroupsClaim.missing => []
  | GroupsClaim.str s => ((splitChar ',' s.data).map String.mk).map strTrim
  | GroupsClaim.lst l => l.map strTrim

/-- The authorization predicate of stack.py lines 195-216: POST requires
`operator`, DELETE requires `admin`, GET requires `monitor`; true means the
handler answers 403. -/
def authDenied (method : String) (groups : List String) : Bool :=
  if method = "POST" then !(groups.contains "operator")
  else if method = "DELETE" then !(groups.contains "admin")
  else if method = "GET" then !(groups.contains "monitor")
  else false

/-- The DynamoDB page read by the active-job query (stack.py lines
231-237): key condition `state = RUNNING` on `StateIndex`,
`ScanIndexForward=False` (greatest `updatedAt` first), `Limit=1` — the
page is the single RUNNING item with the greatest `updatedAt`.  DynamoDB
applies `Limit` when reading the page, before any `FilterExpression`. -/
def topRunning (tbl : List StatusItem) : Option StatusItem :=
  (tbl.filter (fun x => x.state == "RUNNING")).foldl
    (fun acc x =>
      match acc with
      | none => some x
      | some y => if strLt y.updatedAt x.updatedAt then some x else some y) none

/-- The active-job query of `GET /catalog` (stack.py lines 228-241): the
`FilterExpression=Attr('jobType').ne('CONTAINER')` is applied to the
one-item page, so a CONTAINER item at the top of the index empties the
result. -/
def queryActiveJob (tbl : List StatusItem) : Option StatusItem :=
  match topRunning tbl with
  | some it => if it.jobType == "CONTAINER" then none else some it
  | none => none

/-- An API request: the route fields and the authorizer claim the handler
reads. -/
structure ApiRequest where
  path : String
  httpMethod : String
  groups : GroupsClaim
deriving DecidableEq, Repr

/-- Observable outcome of one `ApiHandler` invocation: HTTP status, the
`taskId` answered as the running job by `GET /catalog` (`none` both for an
IDLE answer and for routes that do not answer one), the status-table
writes, and the `(source, detail-type)` of each queue send. -/
structure ApiOutcome where
  status : Nat
  active : Option String
  statusWrites : List StatusItem
  queueSends : List (String × String)
deriving DecidableEq, Repr

/-- The `QUEUED` item written by POST /catalog (stack.py lines 334-345) and
DELETE /catalog (lines 381-392). -/
def queuedItem (tid jt msg now : String) : StatusItem :=
  { taskId := tid
    timestamp := "STATUS"
    updatedAt := now
    state := "QUEUED"
    jobType := jt
    level := "INFO"
    message := msg
    processed := some 0
    total := some 0
    startedAt := some now }

/-- The `ApiHandler` handler (stack.py lines 163-508), branch by branch:
OPTIONS preflight; the `/catalog` authorization gate (lines 181-216), which
returns 403 before any write; `GET /config`; `GET /catalog` (active-job
check, lines 225-324); `POST /catalog` (lines 326-371): write a QUEUED
CATALOG item and enqueue a `CatalogInputFiles` message; `DELETE /catalog`
(lines 373-425): write a QUEUED PURGE item and enqueue `PurgeInputFiles`;
all remaining routes write nothing and send nothing. -/
def apiHandler (statusTbl : List StatusItem) (req : ApiRequest) (uuid now : String) :
    ApiOutcome :=
  if req.httpMethod = "OPTIONS" then ⟨200, none, [], []⟩
  else if req.path = "/catalog" ∧
      (req.httpMethod = "POST" ∨ req.httpMethod = "DELETE" ∨ req.httpMethod = "GET") ∧
      authDenied req.httpMethod (parseGroups req.groups) then
    ⟨403, none, [], []⟩
  else if req.httpMethod = "GET" ∧ req.path = "/config" then ⟨200, none, [], []⟩
  else if req.httpMethod = "GET" ∧ req.path = "/catalog" then
    match queryActiveJob statusTbl with
    | some it => ⟨200, some it.taskId, [], []⟩
    | none => ⟨200, none, [], []⟩
  else if req.httpMethod = "POST" ∧ req.path = "/catalog" then
    ⟨200, none, [queuedItem ("catalog-" ++ uuid) "CATALOG" "Catalog Job Queued..." now],
      [("curio.api", "CatalogInputFiles")]⟩
  else if req.httpMethod = "DELETE" ∧ req.path = "/catalog" then
    ⟨200, none, [queuedItem ("purge-" ++ uuid) "PURGE" "Purge queued..." now],
      [("curio.api", "PurgeInputFiles")]⟩
  else ⟨200, none, [], []⟩


/-! ## Concrete fixtures used by counterexamples and witnesses -/

/-- A container task's current item, already recording `RUNNING` with the
message the monitor would rebuild for a plain `RUNNING` notification. -/
def runningContainerItem : StatusItem :=
  { taskId := "container-abcdef123456"
    timestamp := "STATUS"
    updatedAt := "2024-01-01T00:00:00Z"
    state := "RUNNING"
    jobType := "CONTAINER"
    level := "INFO"
    message := "Container RUNNING" }

/-- A stale `system-active-containers` metric item recording a count of 0. -/
def staleMetricItem : StatusItem := metricItem "2023-12-31T00:00:00Z" 0

/-- Table for the C2 counterexample: one RUNNING container, metric stuck
at 0. -/
def tblC2 : List StatusItem := [runningContainerItem, staleMetricItem]

/-- A notification repeating the recorded `(state, message)` of
`runningContainerItem`. -/
def evC2 : EcsEvent :=
  ⟨"arn:aws:ecs:us-east-1:1:task/cluster/abcdef123456", "RUNNING", "service:curio", none⟩

/-- A container item whose message differs from what a `RUNNING`
notification rebuilds, so the per-task dedup does not fire. -/
def pendingContainerItem : StatusItem :=
  { taskId := "container-abcdef123456"
    timestamp := "STATUS"
    updatedAt := "2024-01-01T00:00:00Z"
    state := "RUNNING"
    jobType := "CONTAINER"
    level := "INFO"
    message := "Container PENDING" }

/-- An up-to-date metric item already recording a count of 1. -/
def currentMetricItem : StatusItem := metricItem "2024-01-01T00:00:00Z" 1

/-- Table for the C6 witness: the container item will be overwritten but the
running count stays 1, matching the recorded metric. -/
def tblC6 : List StatusItem := [pendingContainerItem, currentMetricItem]

/-- A non-container job in state RUNNING. -/
def catItemC9 : StatusItem :=
  { taskId := "catalog-42"
    timestamp := "STATUS"
    updatedAt := "2024-01-01T00:00:00Z"
    state := "RUNNING"
    jobType := "CATALOG"
    level := "INFO"
    message := "Cataloging..." }

/-- A container item updated after `catItemC9`, so it sits at the top of the
`StateIndex` page. -/
def conItemC9 : StatusItem :=
  { taskId := "container-abcdef123456"
    timestamp := "STATUS"
    updatedAt := "2024-01-01T00:05:00Z"
    state := "RUNNING"
    jobType := "CONTAINER"
    level := "INFO"
    message := "Container RUNNING" }

/-- Table for the C9 failing input. -/
def tblC9 : List StatusItem := [catItemC9, conItemC9]

/-- A delivery oracle for which exactly connection `conn-a` has gone away. -/
def goneOnA : String → SendResult :=
  fun c => if c = "conn-a" then SendResult.gone else SendResult.ok

end Curio

namespace Curio

/-! ## Helper lemmas -/

/-- `find?` ignores a filter that can only discard elements failing the
search predicate. -/
lemma find?_filter_of_imp {α : Type} (p q : α → Bool) (l : List α)
    (h : ∀ x, p x = true → q x = true) : (l.filter q).find? p = l.find? p := by
  induction l with
  | nil => rfl
  | cons a l ih =>
    by_cases hq : q a = true
    · rw [List.filter_cons_of_pos hq]
      by_cases hp : p a = true
      · rw [List.find?_cons_of_pos _ hp, List.find?_cons_of_pos _ hp]
      · rw [List.find?_cons_of_neg _ hp, List.find?_cons_of_neg _ hp, ih]
    · rw [List.filter_cons_of_neg hq, ih]
      have hp : ¬ p a = true := fun hpa => hq (h a hpa)
      rw [List.find?_cons_of_neg _ hp]

/-- Reading back the key just written returns the written item. -/
lemma getItem_putItem_self (tbl : List StatusItem) (it : StatusItem) :
    getItem (putItem tbl it) it.taskId it.timestamp = some it := by
  simp [getItem, putItem]

/-- A write leaves reads of a different primary key unchanged. -/
lemma getItem_putItem_other (tbl : List StatusItem) (it : StatusItem) (tid ts : String)
    (h : ¬ (it.taskId = tid ∧ it.timestamp = ts)) :
    getItem (putItem tbl it) tid ts = getItem tbl tid ts := by
  unfold getItem putItem
  rw [List.find?_cons_of_neg _ (by
    simp only [Bool.and_eq_true, beq_iff_eq]
    intro hc
    exact h hc)]
  exact find?_filter_of_imp _ _ tbl (by
    intro x hx
    simp only [Bool.and_eq_true, beq_iff_eq] at hx
    cases hb : (x.taskId == it.taskId && x.timestamp == it.timestamp) with
    | false => rfl
    | true =>
      simp only [Bool.and_eq_true, beq_iff_eq] at hb
      exact (h ⟨hb.1.symm.trans hx.1, hb.2.symm.trans hx.2⟩).elim)

/-- The derived container task id never collides with the synthetic
`system-active-containers` metric key. -/
lemma taskIdOf_ne_system (ev : EcsEvent) : taskIdOf ev ≠ "system-active-containers" := by
  unfold taskIdOf
  intro h
  have h2 :
      "container-".data ++
        (String.mk (takeRightChars 12 ((splitChar '/' ev.taskArn.data).getLastD []))).data =
      "system-active-containers".data := congrArg String.data h
  simp at h2

end Curio

namespace Curio

/-- After the write path ran, the stored current item for the task carries
exactly the incoming `(state, message)`, so the next identical notification
hits the dedup check. -/
lemma dedupHit_after_writePath (tbl : List StatusItem) (ev : EcsEvent) (now : String) :
    dedupHit (ecsWritePath tbl ev now).table ev = true := by
  have hkey : getItem (ecsWritePath tbl ev now).table (taskIdOf ev) "STATUS" =
      some (latestItem ev now) := by
    unfold ecsWritePath
    split
    · rw [getItem_putItem_other]
      · exact getItem_putItem_self tbl (latestItem ev now)
      · intro hc
        exact taskIdOf_ne_system ev hc.1.symm
    · exact getItem_putItem_self tbl (latestItem ev now)
  simp [dedupHit, hkey, latestItem]

/-- The three early returns of the handler all leave the table unchanged and
write nothing. -/
lemma ecsHandler_of_dedupHit (tbl : List StatusItem) (ev : EcsEvent) (now : String)
    (h : dedupHit tbl ev = true) : ecsHandler tbl ev now = ⟨tbl, []⟩ := by
  unfold ecsHandler
  by_cases h1 : ev.taskArn = ""
  · simp [h1]
  · by_cases h2 : ev.group = ""
    · simp [h1, h2]
    · simp [h1, h2, h]

end Curio

namespace Curio

/-! ## Autoscaler claims -/

/-- C1: evaluation of the scale-up decision at the probe points of the
claim.  The configured intervals are `[1,9)→1, [9,19)→2, [19,49)→5,
[49,99)→10, [99,299)→50, [299,∞)→200`, so backlog 9 is assigned exact
capacity 2 (the claim and the code's own inline comments say 1) and
backlog 299 is assigned 200 (the claim and the comments say 50); 10 → 2
and 300 → 200 agree with the claim. -/
theorem scaleUp_targets_at_probe_points :
    scaleUpDecision (some 9) = some 2 ∧ scaleUpDecision (some 299) = some 200 ∧
    scaleUpDecision (some 10) = some 2 ∧ scaleUpDecision (some 300) = some 200 ∧
    scaleUpDecision (some 1) = some 1 ∧ scaleUpDecision (some 8) = some 1 := by
  decide

/-- C3: with no samples in the evaluation window the scale-up path does not
fire (`TreatMissingData.NOT_BREACHING`), while the scale-to-zero path fires
and forces capacity 0 (`TreatMissingData.BREACHING`). -/
theorem missing_data_semantics :
    scaleUpDecision none = none ∧ scaleZeroDecision none = some 0 := by
  decide

/-- C5: over the reachable backlog values (nonnegative), the scale-to-zero
path fires and forces capacity 0 exactly at backlog 0; any positive sample
never triggers it; a missing sample also fires it. -/
theorem scaleZero_fires_exactly_at_zero (b : Rat) (hb : 0 ≤ b) :
    (scaleZeroDecision (some b) = some 0 ↔ b = 0) ∧
    (0 < b → scaleZeroDecision (some b) = none) ∧
    scaleZeroDecision none = some 0 := by
  refine ⟨⟨fun hfire => ?_, fun hz => by subst hz; decide⟩, fun hpos => ?_, by decide⟩
  · by_cases hle : b ≤ 0
    · exact le_antisymm hle hb
    · simp [scaleZeroDecision, hle] at hfire
  · have hle : ¬ b ≤ 0 := not_le.mpr hpos
    simp [scaleZeroDecision, hle]

/-- C5 witness: the theorem instantiated at the sample value 1. -/
theorem scaleZero_fires_exactly_at_zero_witness :
    (scaleZeroDecision (some 1) = some 0 ↔ (1 : Rat) = 0) ∧
    ((0 : Rat) < 1 → scaleZeroDecision (some 1) = none) ∧
    scaleZeroDecision none = some 0 :=
  scaleZero_fires_exactly_at_zero 1 (by decide)

end Curio

namespace Curio

/-! ## Broadcaster lemmas and claim -/

/-- Delivery is attempted once per scanned connection id, in scan order,
whatever the outcomes are. -/
lemma deliverAll_attempts (reg conns : List String) (send : String → SendResult) :
    (deliverAll reg conns send).attempts = conns := by
  induction conns generalizing reg with
  | nil => rfl
  | cons c rest ih =>
    cases hsc : send c <;> simp [deliverAll, hsc, ih]

/-- The fan-out never adds registry entries. -/
lemma mem_deliverAll_registry {x : String} (reg conns : List String)
    (send : String → SendResult) (h : x ∈ (deliverAll reg conns send).registry) : x ∈ reg := by
  induction conns generalizing reg with
  | nil => exact h
  | cons c rest ih =>
    unfold deliverAll at h
    cases hsc : send c <;> rw [hsc] at h
    case gone => exact List.mem_of_mem_filter (ih _ h)
    all_goals exact ih _ h

/-- A connection whose delivery reports gone is absent afterwards. -/
lemma deliverAll_gone_removed {cid : String} (reg conns : List String)
    (send : String → SendResult) (hc : cid ∈ conns) (hg : send cid = SendResult.gone) :
    cid ∉ (deliverAll reg conns send).registry := by
  induction conns generalizing reg with
  | nil => cases hc
  | cons c rest ih =>
    by_cases hx : cid = c
    · subst hx
      intro hmem
      unfold deliverAll at hmem
      rw [hg] at hmem
      have h2 := mem_deliverAll_registry _ _ _ hmem
      simp [List.mem_filter] at h2
    · rcases List.mem_cons.mp hc with h | h
      · exact absurd h hx
      · intro hmem
        unfold deliverAll at hmem
        cases hsc : send c <;> rw [hsc] at hmem <;> exact ih _ h hmem

/-- A registered connection whose delivery does not report gone is still
registered afterwards. -/
lemma deliverAll_kept {cid : String} (reg conns : List String)
    (send : String → SendResult) (hr : cid ∈ reg) (hg : send cid ≠ SendResult.gone) :
    cid ∈ (deliverAll reg conns send).registry := by
  induction conns generalizing reg with
  | nil => exact hr
  | cons c rest ih =>
    unfold deliverAll
    cases hsc : send c
    case gone =>
      apply ih
      have hne : cid ≠ c := fun he => hg (he ▸ hsc)
      simp [List.mem_filter, hr, hne]
    all_goals exact ih _ hr

/-- C7: during a status-change fan-out every scanned connection gets exactly
one delivery attempt, in scan order; a connection whose delivery reports the
peer gone is deleted from the registry (absent from the next scan); a
connection whose delivery succeeds or fails for any other reason keeps its
registry record, unaffected by the failures of others. -/
theorem broadcaster_prunes_gone (reg : List String) (send : String → SendResult)
    (cid : String) (h : cid ∈ reg) :
    (broadcastRecord reg send).attempts = reg ∧
    (send cid = SendResult.gone → cid ∉ (broadcastRecord reg send).registry) ∧
    (send cid ≠ SendResult.gone → cid ∈ (broadcastRecord reg send).registry) :=
  ⟨deliverAll_attempts reg reg send,
   fun hg => deliverAll_gone_removed reg reg send h hg,
   fun hg => deliverAll_kept reg reg send h hg⟩

/-- C7 witness: two connections, `conn-a` gone. -/
theorem broadcaster_prunes_gone_witness :
    (broadcastRecord ["conn-a", "conn-b"] goneOnA).attempts = ["conn-a", "conn-b"] ∧
    (goneOnA "conn-a" = SendResult.gone →
      "conn-a" ∉ (broadcastRecord ["conn-a", "conn-b"] goneOnA).registry) ∧
    (goneOnA "conn-a" ≠ SendResult.gone →
      "conn-a" ∈ (broadcastRecord ["conn-a", "conn-b"] goneOnA).registry) :=
  broadcaster_prunes_gone ["conn-a", "conn-b"] goneOnA "conn-a" (by decide)

end Curio

namespace Curio

/-! ## Container monitor claims -/

/-- C4: the container upsert is idempotent.  After any invocation of the
monitor, replaying the same notification (same `(state, message)`) at a
later time performs no `put_item` at all — in particular no second change
event for the task's current record reaches the stream — and leaves the
table exactly as it was. -/
theorem container_upsert_idempotent (tbl : List StatusItem) (ev : EcsEvent) (t1 t2 : String) :
    ecsHandler (ecsHandler tbl ev t1).table ev t2 = ⟨(ecsHandler tbl ev t1).table, []⟩ := by
  by_cases h1 : ev.taskArn = ""
  · simp [ecsHandler, h1]
  · by_cases h2 : ev.group = ""
    · simp [ecsHandler, h1, h2]
    · by_cases h3 : dedupHit tbl ev = true
      · have e1 : ecsHandler tbl ev t1 = ⟨tbl, []⟩ := ecsHandler_of_dedupHit tbl ev t1 h3
        rw [e1]
        exact ecsHandler_of_dedupHit tbl ev t2 h3
      · have e1 : ecsHandler tbl ev t1 = ecsWritePath tbl ev t1 := by
          simp [ecsHandler, h1, h2, h3]
        rw [e1]
        exact ecsHandler_of_dedupHit _ ev t2 (dedupHit_after_writePath tbl ev t1)

/-- C2 counterexample: a table whose current container record already
matches the incoming `(state, message)` (dedup skip) while the recorded
aggregate count (0) differs from the recomputed running-container count
(1).  The handler returns with no `put_item` at all: the synthetic
`system-active-containers` METRIC record is not rewritten even though the
counts differ, contradicting the claim. -/
theorem dedup_skip_aggregation_cex :
    dedupHit tblC2 evC2 = true ∧
    countRunningContainers tblC2 = 1 ∧
    lastCount tblC2 = some 0 ∧
    ecsHandler tblC2 evC2 "2024-01-02T00:00:00Z" = ⟨tblC2, []⟩ := by
  decide

/-- C2 as amended: when the per-task `(state, message)` dedup check fires,
the handler returns early — the aggregate count is not recomputed and no
record (in particular no METRIC record) is written; the aggregation runs
only on invocations that perform the per-task write. -/
theorem dedup_skip_returns_early (tbl : List StatusItem) (ev : EcsEvent) (now : String)
    (h : dedupHit tbl ev = true) : ecsHandler tbl ev now = ⟨tbl, []⟩ :=
  ecsHandler_of_dedupHit tbl ev now h

/-- C2 witness: the amended theorem at the concrete dedup-skip input. -/
theorem dedup_skip_returns_early_witness :
    ecsHandler tblC2 evC2 "2024-01-03T00:00:00Z" = ⟨tblC2, []⟩ :=
  dedup_skip_returns_early tblC2 evC2 "2024-01-03T00:00:00Z" (by decide)

/-- C6: on an invocation that does perform the per-task write, the metric
write is suppressed whenever the recomputed running-container count equals
the count recorded in the `processed` field of the latest
`system-active-containers` item: the handler's only write is the per-task
item, and the table keeps the old metric record untouched. -/
theorem metric_write_suppressed (tbl : List StatusItem) (ev : EcsEvent) (now : String)
    (h1 : ¬ ev.taskArn = "") (h2 : ¬ ev.group = "") (h3 : ¬ dedupHit tbl ev = true)
    (h4 : lastCount (afterPut tbl ev now) =
      some (countRunningContainers (afterPut tbl ev now) : Int)) :
    ecsHandler tbl ev now = ⟨afterPut tbl ev now, [latestItem ev now]⟩ := by
  have hs : shouldUpdateMetric (afterPut tbl ev now) = false := by
    simp [shouldUpdateMetric, h4]
  simp [ecsHandler, h1, h2, h3, ecsWritePath, hs]

/-- C6 witness: the container record changes (message `Container PENDING`
to `Container RUNNING`) but the running count stays 1, matching the
recorded metric, so only the per-task write happens. -/
theorem metric_write_suppressed_witness :
    ecsHandler tblC6 evC2 "2024-01-02T00:00:00Z" =
      ⟨afterPut tblC6 evC2 "2024-01-02T00:00:00Z", [latestItem evC2 "2024-01-02T00:00:00Z"]⟩ :=
  metric_write_suppressed tblC6 evC2 "2024-01-02T00:00:00Z"
    (by decide) (by decide) (by decide) (by decide)

end Curio

namespace Curio

/-! ## Event router claim -/

/-- C8: every event of the deploying account is archived, with 30-day
retention, whatever its type; it is additionally copied onto the work queue
if and only if its `(source, detailType)` pair belongs to the configured
allow-list. -/
theorem router_archives_and_forwards (acct : String) (e : BusEvent) (ha : e.account = acct) :
    archiveMatches acct e = true ∧ archiveRetentionDays = 30 ∧
    (forwardedToQueue e = true ↔ (e.source, e.detailType) ∈ allowList) := by
  refine ⟨by simp [archiveMatches, ha], rfl, ?_⟩
  simp only [forwardedToQueue, ruleSources, ruleDetailTypes, allowList,
    Bool.and_eq_true, List.contains, List.elem_eq_mem, decide_eq_true_eq,
    List.mem_cons, List.not_mem_nil, or_false, Prod.mk.injEq]
  tauto

/-- C8 witness: an `ArtifactAdded` event from the deploying account. -/
theorem router_archives_and_forwards_witness :
    archiveMatches "123456789012" ⟨"123456789012", "curio.buildmanager", "ArtifactAdded"⟩ = true ∧
    archiveRetentionDays = 30 ∧
    (forwardedToQueue ⟨"123456789012", "curio.buildmanager", "ArtifactAdded"⟩ = true ↔
      ("curio.buildmanager", "ArtifactAdded") ∈ allowList) :=
  router_archives_and_forwards "123456789012"
    ⟨"123456789012", "curio.buildmanager", "ArtifactAdded"⟩ rfl

end Curio

namespace Curio

/-! ## API handler claims -/

/-- C9: evaluation at the failing input.  `tblC9` holds a non-container job
(`catItemC9`, state RUNNING, jobType CATALOG) together with a container
item updated later.  Because the query reads a one-item page (the latest
RUNNING item — the container) before applying the `jobType <> CONTAINER`
filter, it returns nothing, and an authorized `GET /catalog` answers IDLE
(no active task) although a non-container RUNNING record exists —
contradicting the claim, whose second half (no non-container RUNNING
record gives IDLE) the code does satisfy. -/
theorem activeJob_hidden_by_container :
    catItemC9 ∈ tblC9 ∧ catItemC9.state = "RUNNING" ∧ catItemC9.jobType = "CATALOG" ∧
    queryActiveJob tblC9 = none ∧
    apiHandler tblC9 ⟨"/catalog", "GET", GroupsClaim.str "monitor"⟩ "u" "t" =
      ⟨200, none, [], []⟩ := by
  decide

/-- C10: requests to `/catalog` are gated on Cognito group membership
before any state change: POST without the `operator` group, DELETE without
`admin`, and GET without `monitor` each answer 403 with no status-table
write and no queue send. -/
theorem catalog_auth_enforced (tbl : List StatusItem) (req : ApiRequest) (uuid now : String)
    (hp : req.path = "/catalog") :
    (req.httpMethod = "POST" → "operator" ∉ parseGroups req.groups →
      apiHandler tbl req uuid now = ⟨403, none, [], []⟩) ∧
    (req.httpMethod = "DELETE" → "admin" ∉ parseGroups req.groups →
      apiHandler tbl req uuid now = ⟨403, none, [], []⟩) ∧
    (req.httpMethod = "GET" → "monitor" ∉ parseGroups req.groups →
      apiHandler tbl req uuid now = ⟨403, none, [], []⟩) := by
  refine ⟨fun hm hg => ?_, fun hm hg => ?_, fun hm hg => ?_⟩ <;>
    simp [apiHandler, hp, hm, authDenied, List.contains, List.elem_eq_mem, hg]

/-- C10 witness: the three denials at concrete requests carrying none of
the required groups. -/
theorem catalog_auth_enforced_witness :
    apiHandler [] ⟨"/catalog", "POST", GroupsClaim.lst ["viewer"]⟩ "u" "t" = ⟨403, none, [], []⟩ ∧
    apiHandler [] ⟨"/catalog", "DELETE", GroupsClaim.lst ["operator"]⟩ "u" "t" = ⟨403, none, [], []⟩ ∧
    apiHandler [] ⟨"/catalog", "GET", GroupsClaim.str "operator,admin"⟩ "u" "t" = ⟨403, none, [], []⟩ :=
  ⟨(catalog_auth_enforced [] ⟨"/catalog", "POST", GroupsClaim.lst ["viewer"]⟩ "u" "t" rfl).1
     rfl (by decide),
   (catalog_auth_enforced [] ⟨"/catalog", "DELETE", GroupsClaim.lst ["operator"]⟩ "u" "t" rfl).2.1
     rfl (by decide),
   (catalog_auth_enforced [] ⟨"/catalog", "GET", GroupsClaim.str "operator,admin"⟩ "u" "t" rfl).2.2
     rfl (by decide)⟩

end Curio
